import Mathlib

/-!
Verification of the local-prompt-manager database session layer.

This file gives a shallow embedding of `src/services/DatabaseService.ts`
(the `DatabaseService` class backed by sql.js/SQLite), of the save path in
the main app component (`handleSaveDb`), and of the handle-cache slot kept
by `src/services/StorageService.ts`, and proves or refutes the frozen
claims about them.

Modelling conventions:
* SQLite `DATETIME` values produced by `datetime('now')` and
  `CURRENT_TIMESTAMP` are TEXT of the fixed form `YYYY-MM-DD HH:MM:SS`;
  comparison on that format is order-isomorphic to comparison of the
  underlying instant, so timestamps are modelled as `Nat`.
* Each table carries its `AUTOINCREMENT` sequence (`seq` = next id, first
  id is 1), as recorded by SQLite in `sqlite_sequence`; `lastInsertRowid`
  models the connection-level `last_insert_rowid()` register (0 on a fresh
  connection).
* Crucially, the repository never issues `PRAGMA foreign_keys = ON`, and
  sql.js (like stock SQLite) keeps foreign-key enforcement OFF by default.
  The `FOREIGN KEY ... ON DELETE CASCADE` clauses of `initSchema` are
  therefore inert at run time: `deleteProject` executes exactly
  `DELETE FROM projects WHERE id = ?` and touches no other table, and
  `createBot` inserts unconditionally even when `project_id` matches no
  project.  The embedding reproduces this actual behaviour.
* The serialized database image (`db.export()` / `new SQL.Database(data)`)
  is lossless for sql.js, including the `sqlite_sequence` table, so the
  image is modelled as the database state itself.
* JavaScript failure modes are reified in `JsError`: the explicit
  `throw new Error("Database not initialized")` in `export()`, the
  `TypeError` raised by `this.db.exec(...)` when `this.db` is `null`
  (no other method performs an explicit initialization check), and the
  `NotAllowedError` raised by `FileSystemFileHandle.createWritable()`
  when write permission is refused.
-/

namespace LocalPromptManager

/-- A row of the `projects` table. -/
structure ProjectRow where
  id : Nat
  name : String
  description : String
  created_at : Nat
  updated_at : Nat
deriving DecidableEq, Repr

/-- A row of the `bots` table. -/
structure BotRow where
  id : Nat
  project_id : Nat
  name : String
  description : String
  created_at : Nat
  updated_at : Nat
deriving DecidableEq, Repr

/-- A row of the `prompts` table. -/
structure PromptRow where
  id : Nat
  bot_id : Nat
  name : String
  system_prompt : String
  user_prompt : String
  dev_prompt : String
  params : String
  created_at : Nat
  updated_at : Nat
deriving DecidableEq, Repr

/-- A table: its rows in rowid (insertion) order plus its AUTOINCREMENT
sequence (the next id to assign; SQLite assigns ids 1, 2, ...). -/
structure Table (α : Type) where
  rows : List α
  seq : Nat
deriving DecidableEq, Repr

/-- A freshly created table: no rows, next id 1. -/
def Table.empty {α : Type} : Table α := ⟨[], 1⟩

/-- The whole relational state of one sql.js engine instance, together with
the connection's `last_insert_rowid()` register. -/
structure DB where
  projects : Table ProjectRow
  bots : Table BotRow
  prompts : Table PromptRow
  lastInsertRowid : Nat
deriving DecidableEq, Repr

/-- `new SQL.Database()` followed by `initSchema()`: three empty tables. -/
def DB.fresh : DB := ⟨Table.empty, Table.empty, Table.empty, 0⟩

/-- The ordering used by `ORDER BY updated_at DESC`: row `a` may precede
row `b` when `b`'s key is at most `a`'s. -/
def updGE {α : Type} (key : α → Nat) (a b : α) : Prop := key b ≤ key a

instance {α : Type} (key : α → Nat) : DecidableRel (updGE key) :=
fun a b => Nat.decLe (key b) (key a)

instance {α : Type} (key : α → Nat) : IsTotal α (updGE key) :=
⟨fun a b => Nat.le_total (key b) (key a)⟩

instance {α : Type} (key : α → Nat) : IsTrans α (updGE key) :=
⟨fun _ _ _ hab hbc => Nat.le_trans hbc hab⟩

/-- `SELECT * ... ORDER BY updated_at DESC` on rows with key `key`.
SQLite leaves the relative order of equal keys unspecified; any
comparison sort realises the contract, and we fix insertion sort. -/
def orderByUpdatedDesc {α : Type} (key : α → Nat) (l : List α) : List α :=
List.insertionSort (updGE key) l

/-- `getProjects()`: `SELECT * FROM projects ORDER BY updated_at DESC`. -/
def DB.getProjects (db : DB) : List ProjectRow :=
orderByUpdatedDesc ProjectRow.updated_at db.projects.rows

/-- `getProject(id)`: first row with this id, or null. -/
def DB.getProject (db : DB) (id : Nat) : Option ProjectRow :=
db.projects.rows.find? (fun r => r.id == id)

/-- `createProject(name, description)`: INSERT with `updated_at =
datetime('now')` and `created_at` defaulted to `CURRENT_TIMESTAMP`. -/
def DB.createProject (db : DB) (name description : String) (now : Nat) : DB :=
{ db with
  projects := ⟨db.projects.rows ++ [⟨db.projects.seq, name, description, now, now⟩],
               db.projects.seq + 1⟩,
  lastInsertRowid := db.projects.seq }

/-- `updateProject(id, name, description)`: UPDATE of the matching rows. -/
def DB.updateProject (db : DB) (id : Nat) (name description : String) (now : Nat) : DB :=
{ db with
  projects := { db.projects with
    rows := db.projects.rows.map (fun r =>
      if r.id = id then { r with name := name, description := description, updated_at := now }
      else r) } }

/-- `deleteProject(id)`: exactly `DELETE FROM projects WHERE id = ?`.
Foreign-key enforcement is off (no `PRAGMA foreign_keys = ON` anywhere in
the repository), so the declared `ON DELETE CASCADE` does not fire and the
`bots` and `prompts` tables are untouched. -/
def DB.deleteProject (db : DB) (id : Nat) : DB :=
{ db with
  projects := { db.projects with rows := db.projects.rows.filter (fun r => r.id != id) } }

/-- `getBots(projectId)`: scoped SELECT ordered by `updated_at DESC`. -/
def DB.getBots (db : DB) (projectId : Nat) : List BotRow :=
orderByUpdatedDesc BotRow.updated_at (db.bots.rows.filter (fun r => r.project_id == projectId))

/-- `getBot(id)`: first row with this id, or null. -/
def DB.getBot (db : DB) (id : Nat) : Option BotRow :=
db.bots.rows.find? (fun r => r.id == id)

/-- `createBot(projectId, name, description)`: unconditional INSERT; with
foreign keys off, no check that `projectId` matches an existing project. -/
def DB.createBot (db : DB) (projectId : Nat) (name description : String) (now : Nat) : DB :=
{ db with
  bots := ⟨db.bots.rows ++ [⟨db.bots.seq, projectId, name, description, now, now⟩],
           db.bots.seq + 1⟩,
  lastInsertRowid := db.bots.seq }

/-- `updateBot(id, name, description)`. -/
def DB.updateBot (db : DB) (id : Nat) (name description : String) (now : Nat) : DB :=
{ db with
  bots := { db.bots with
    rows := db.bots.rows.map (fun r =>
      if r.id = id then { r with name := name, description := description, updated_at := now }
      else r) } }

/-- `deleteBot(id)`: exactly `DELETE FROM bots WHERE id = ?` (no cascade,
foreign keys off). -/
def DB.deleteBot (db : DB) (id : Nat) : DB :=
{ db with
  bots := { db.bots with rows := db.bots.rows.filter (fun r => r.id != id) } }

/-- `getPrompts(botId)`: scoped SELECT ordered by `updated_at DESC`. -/
def DB.getPrompts (db : DB) (botId : Nat) : List PromptRow :=
orderByUpdatedDesc PromptRow.updated_at (db.prompts.rows.filter (fun r => r.bot_id == botId))

/-- `getPrompt(id)`: first row with this id, or null. -/
def DB.getPrompt (db : DB) (id : Nat) : Option PromptRow :=
db.prompts.rows.find? (fun r => r.id == id)

/-- `JSON.stringify(\x7b temperature: 0.7, maxOutputTokens: 1024 \x7d, null, 2)`,
the fixed default `params` payload of `createPrompt`. -/
def defaultParams : String :=
"\x7b\n  \"temperature\": 0.7,\n  \"maxOutputTokens\": 1024\n\x7d"

/-- `createPrompt(botId, name)`: INSERT with empty prompt bodies and the
default params, then `SELECT last_insert_rowid()` is returned. -/
def DB.createPrompt (db : DB) (botId : Nat) (name : String) (now : Nat) : Nat × DB :=
let db2 : DB :=
  { db with
    prompts := ⟨db.prompts.rows ++
                  [⟨db.prompts.seq, botId, name, "", "", "", defaultParams, now, now⟩],
                db.prompts.seq + 1⟩,
    lastInsertRowid := db.prompts.seq }
(db2.lastInsertRowid, db2)

/-- The `Partial<Prompt>` record passed to `updatePrompt`: a field is
`some v` exactly when it is explicitly present (`!== undefined`). -/
structure PromptPatch where
  name : Option String := none
  system_prompt : Option String := none
  user_prompt : Option String := none
  dev_prompt : Option String := none
  params : Option String := none
deriving DecidableEq, Repr

/-- True when no updatable field is present (`updates.length === 0`). -/
def PromptPatch.isEmpty (p : PromptPatch) : Bool :=
p.name.isNone && p.system_prompt.isNone && p.user_prompt.isNone &&
  p.dev_prompt.isNone && p.params.isNone

/-- `updatePrompt(id, data)`: builds a SET clause from the present fields
only; returns immediately (no statement at all) when none is present;
otherwise also sets `updated_at = datetime('now')` on the matching rows. -/
def DB.updatePrompt (db : DB) (id : Nat) (data : PromptPatch) (now : Nat) : DB :=
if data.isEmpty then db
else
  { db with
    prompts := { db.prompts with
      rows := db.prompts.rows.map (fun r =>
        if r.id = id then
          { r with
            name := data.name.getD r.name,
            system_prompt := data.system_prompt.getD r.system_prompt,
            user_prompt := data.user_prompt.getD r.user_prompt,
            dev_prompt := data.dev_prompt.getD r.dev_prompt,
            params := data.params.getD r.params,
            updated_at := now }
        else r) } }

/-- `deletePrompt(id)`: `DELETE FROM prompts WHERE id = ?`. -/
def DB.deletePrompt (db : DB) (id : Nat) : DB :=
{ db with
  prompts := { db.prompts with rows := db.prompts.rows.filter (fun r => r.id != id) } }

/-- `duplicatePrompt(id)`: no-op when the id does not resolve; otherwise a
fresh INSERT copying all body fields, with the fixed " (Copy)" suffix. -/
def DB.duplicatePrompt (db : DB) (id : Nat) (now : Nat) : DB :=
match db.getPrompt id with
| none => db
| some p =>
  { db with
    prompts := ⟨db.prompts.rows ++
                  [⟨db.prompts.seq, p.bot_id, p.name ++ " (Copy)", p.system_prompt,
                    p.user_prompt, p.dev_prompt, p.params, now, now⟩],
                db.prompts.seq + 1⟩,
    lastInsertRowid := db.prompts.seq }

/-- An opaque `FileSystemFileHandle`, identified by its file name. -/
structure FileHandle where
  name : String
deriving DecidableEq, Repr

/-- The JavaScript failure modes of the session layer. -/
inductive JsError where
  | notInitialized
  | nullEngine
  | permissionDenied
deriving DecidableEq, Repr

/-- The `DatabaseService` instance: `private db: any = null` and
`private fileHandle: FileSystemFileHandle | null = null`. -/
structure Session where
  db : Option DB
  fileHandle : Option FileHandle
deriving DecidableEq, Repr

/-- The service as constructed: no engine, no handle. -/
def Session.start : Session := ⟨none, none⟩

/-- `init(data?)`: with `data`, opens the engine directly from the image
(`new SQL.Database(data)`); without, creates an empty engine and applies
the schema.  The file handle is not touched by `init`. -/
def Session.init (s : Session) (data : Option DB) : Session :=
{ s with db := some (data.getD DB.fresh) }

/-- `setFileHandle(handle)`. -/
def Session.setFileHandle (s : Session) (h : Option FileHandle) : Session :=
{ s with fileHandle := h }

/-- `export()`: the only operation with an explicit initialization check
(`if (!this.db) throw new Error("Database not initialized")`); otherwise
it serializes the engine state without mutating it. -/
def Session.export (s : Session) : Except JsError DB × Session :=
match s.db with
| none => (.error .notInitialized, s)
| some db => (.ok db, s)

/-- `getProjects()`: `this.db.exec(...)` raises a TypeError when `db` is
null; there is no explicit initialization check. -/
def Session.getProjects (s : Session) : Except JsError (List ProjectRow) × Session :=
match s.db with
| none => (.error .nullEngine, s)
| some db => (.ok db.getProjects, s)

/-- `getProject(id)` at the session level. -/
def Session.getProject (s : Session) (id : Nat) : Except JsError (Option ProjectRow) × Session :=
match s.db with
| none => (.error .nullEngine, s)
| some db => (.ok (db.getProject id), s)

/-- `createProject(name, description)` at the session level. -/
def Session.createProject (s : Session) (name description : String) (now : Nat) :
    Except JsError Unit × Session :=
match s.db with
| none => (.error .nullEngine, s)
| some db => (.ok (), { s with db := some (db.createProject name description now) })

/-- `updateProject(id, name, description)` at the session level. -/
def Session.updateProject (s : Session) (id : Nat) (name description : String) (now : Nat) :
    Except JsError Unit × Session :=
match s.db with
| none => (.error .nullEngine, s)
| some db => (.ok (), { s with db := some (db.updateProject id name description now) })

/-- `deleteProject(id)` at the session level. -/
def Session.deleteProject (s : Session) (id : Nat) : Except JsError Unit × Session :=
match s.db with
| none => (.error .nullEngine, s)
| some db => (.ok (), { s with db := some (db.deleteProject id) })

/-- `getBots(projectId)` at the session level. -/
def Session.getBots (s : Session) (projectId : Nat) : Except JsError (List BotRow) × Session :=
match s.db with
| none => (.error .nullEngine, s)
| some db => (.ok (db.getBots projectId), s)

/-- `getBot(id)` at the session level. -/
def Session.getBot (s : Session) (id : Nat) : Except JsError (Option BotRow) × Session :=
match s.db with
| none => (.error .nullEngine, s)
| some db => (.ok (db.getBot id), s)

/-- `createBot(projectId, name, description)` at the session level. -/
def Session.createBot (s : Session) (projectId : Nat) (name description : String) (now : Nat) :
    Except JsError Unit × Session :=
match s.db with
| none => (.error .nullEngine, s)
| some db => (.ok (), { s with db := some (db.createBot projectId name description now) })

/-- `updateBot(id, name, description)` at the session level. -/
def Session.updateBot (s : Session) (id : Nat) (name description : String) (now : Nat) :
    Except JsError Unit × Session :=
match s.db with
| none => (.error .nullEngine, s)
| some db => (.ok (), { s with db := some (db.updateBot id name description now) })

/-- `deleteBot(id)` at the session level. -/
def Session.deleteBot (s : Session) (id : Nat) : Except JsError Unit × Session :=
match s.db with
| none => (.error .nullEngine, s)
| some db => (.ok (), { s with db := some (db.deleteBot id) })

/-- `getPrompts(botId)` at the session level. -/
def Session.getPrompts (s : Session) (botId : Nat) : Except JsError (List PromptRow) × Session :=
match s.db with
| none => (.error .nullEngine, s)
| some db => (.ok (db.getPrompts botId), s)

/-- `getPrompt(id)` at the session level. -/
def Session.getPrompt (s : Session) (id : Nat) : Except JsError (Option PromptRow) × Session :=
match s.db with
| none => (.error .nullEngine, s)
| some db => (.ok (db.getPrompt id), s)

/-- `createPrompt(botId, name)` at the session level. -/
def Session.createPrompt (s : Session) (botId : Nat) (name : String) (now : Nat) :
    Except JsError Nat × Session :=
match s.db with
| none => (.error .nullEngine, s)
| some db =>
  let r := db.createPrompt botId name now
  (.ok r.1, { s with db := some r.2 })

/-- `updatePrompt(id, data)` at the session level.  The source collects
the present fields and executes `if (updates.length === 0) return;`
before its first dereference of `this.db`, so an empty patch returns
normally even on the uninitialized service; only a non-empty patch
reaches `this.db.run` and can hit the null engine. -/
def Session.updatePrompt (s : Session) (id : Nat) (data : PromptPatch) (now : Nat) :
    Except JsError Unit × Session :=
if data.isEmpty then (.ok (), s)
else
  match s.db with
  | none => (.error .nullEngine, s)
  | some db => (.ok (), { s with db := some (db.updatePrompt id data now) })

/-- `deletePrompt(id)` at the session level. -/
def Session.deletePrompt (s : Session) (id : Nat) : Except JsError Unit × Session :=
match s.db with
| none => (.error .nullEngine, s)
| some db => (.ok (), { s with db := some (db.deletePrompt id) })

/-- `duplicatePrompt(id)` at the session level. -/
def Session.duplicatePrompt (s : Session) (id : Nat) (now : Nat) :
    Except JsError Unit × Session :=
match s.db with
| none => (.error .nullEngine, s)
| some db => (.ok (), { s with db := some (db.duplicatePrompt id now) })

/-- The environment's answer when `createWritable()` is attempted on the
bound handle: the browser either grants the write or refuses permission
(raising `NotAllowedError`). -/
inductive WriteEnv where
  | granted
  | refused
deriving DecidableEq, Repr

/-- `saveToDisk()`: returns `false` when there is no engine or no handle;
with both present it exports and writes through the handle; an exception
from the write path is logged and re-thrown (`throw e`), mutating
nothing. -/
def Session.saveToDisk (s : Session) (env : WriteEnv) : Except JsError Bool × Session :=
match s.db, s.fileHandle with
| none, _ => (.ok false, s)
| some _, none => (.ok false, s)
| some _, some _ =>
  match env with
  | .granted => (.ok true, s)
  | .refused => (.error .permissionDenied, s)

/-- The application state around the session: the session itself plus the
single IndexedDB slot (`'db_handle'` in store `'handles'`) managed by
`StorageService`. -/
structure AppState where
  session : Session
  handleCache : Option FileHandle
deriving DecidableEq, Repr

/-- The user-visible outcome of the save button. -/
inductive SaveStatus where
  | savedToDisk
  | downloaded
  | alertFailure
deriving DecidableEq, Repr

/-- `handleSaveDb` from the main app component: tries `saveToDisk()`;
on `false` falls back to `export()` plus a browser download; any
exception from either path lands in the `catch` block, which only shows
an alert.  The handle cache is never touched on this path. -/
def handleSaveDb (app : AppState) (env : WriteEnv) : SaveStatus × AppState :=
match app.session.saveToDisk env with
| (.ok true, s) => (.savedToDisk, { app with session := s })
| (.ok false, s) =>
  match s.export with
  | (.ok _, s2) => (.downloaded, { app with session := s2 })
  | (.error _, s2) => (.alertFailure, { app with session := s2 })
| (.error _, s) => (.alertFailure, { app with session := s })

/-! Helper lemmas shared by several claims. -/

/-- Sorting for a listing does not change the set of rows. -/
theorem mem_orderByUpdatedDesc {α : Type} (key : α → Nat) (l : List α) (a : α) :
    a ∈ orderByUpdatedDesc key l ↔ a ∈ l :=
(List.perm_insertionSort (updGE key) l).mem_iff

/-- A listing is sorted by its key, descending. -/
theorem sorted_orderByUpdatedDesc {α : Type} (key : α → Nat) (l : List α) :
    List.Pairwise (fun a b => key b ≤ key a) (orderByUpdatedDesc key l) :=
List.sorted_insertionSort (updGE key) l

/-- Pointwise description of a mapped list. -/
theorem forall₂_map_self {α : Type} (P : α → α → Prop) (f : α → α) (l : List α)
    (h : ∀ a ∈ l, P a (f a)) : List.Forall₂ P l (l.map f) :=
List.forall₂_map_right_iff.2 (List.forall₂_same.2 h)

/-- Deleting an id that occurs in no projects row leaves the state intact. -/
theorem DB.deleteProject_not_mem (d : DB) (id : Nat)
    (h : ∀ r ∈ d.projects.rows, r.id ≠ id) : d.deleteProject id = d := by
  unfold DB.deleteProject
  rw [List.filter_eq_self.2 (fun a ha => by simpa [bne_iff_ne] using h a ha)]

/-- Deleting an id that occurs in no bots row leaves the state intact. -/
theorem DB.deleteBot_not_mem (d : DB) (id : Nat)
    (h : ∀ r ∈ d.bots.rows, r.id ≠ id) : d.deleteBot id = d := by
  unfold DB.deleteBot
  rw [List.filter_eq_self.2 (fun a ha => by simpa [bne_iff_ne] using h a ha)]

/-- Deleting an id that occurs in no prompts row leaves the state intact. -/
theorem DB.deletePrompt_not_mem (d : DB) (id : Nat)
    (h : ∀ r ∈ d.prompts.rows, r.id ≠ id) : d.deletePrompt id = d := by
  unfold DB.deletePrompt
  rw [List.filter_eq_self.2 (fun a ha => by simpa [bne_iff_ne] using h a ha)]

/-- Updating an id that occurs in no prompts row leaves the state intact. -/
theorem DB.updatePrompt_not_mem (d : DB) (id : Nat) (data : PromptPatch) (now : Nat)
    (h : ∀ r ∈ d.prompts.rows, r.id ≠ id) : d.updatePrompt id data now = d := by
  unfold DB.updatePrompt
  split
  · rfl
  · rw [List.map_congr_left (fun a ha => if_neg (h a ha)), List.map_id']

/-- Re-packing an unchanged engine into the service leaves it intact. -/
theorem Session.set_same_db (s : Session) (d : DB) (h : s.db = some d) :
    { s with db := some d } = s := by
  rw [← h]

/-! The claims. -/

/-- Failing input for C1: a project with one bot holding one prompt,
built through the service operations, then `deleteProject`. -/
def demoDB : DB :=
((((DB.fresh.createProject "P1" "" 1).createBot 1 "B1" "" 2).createPrompt
    1 "New Prompt" 3).2).deleteProject 1

/-- C1: the claim says that after `deleteProject(p)` every bots row of `p`
and every prompts row of its bots are gone, and `getBots(p)` /
`getPrompts(b)` are empty.  The code runs only
`DELETE FROM projects WHERE id = ?` and the `ON DELETE CASCADE` clauses
never fire because `PRAGMA foreign_keys` is never enabled, so the project
row is gone but the bot and its prompt survive and both listings are
non-empty. -/
theorem c1_delete_project_no_cascade :
    demoDB.getProject 1 = none ∧
    demoDB.getBots 1 ≠ [] ∧
    demoDB.getPrompts 1 ≠ [] := by
  decide

/-- Failing input for C2: `createBot(42, "B", "")` on a fresh empty
session, where no project 42 exists. -/
def orphanDB : DB := DB.fresh.createBot 42 "B" "" 1

/-- C2: the claim says every bots row's `project_id` references an
existing project and that `createBot` with an unresolvable `project_id`
produces no orphan bot.  With foreign-key enforcement off (no
`PRAGMA foreign_keys = ON` anywhere), the insert succeeds unconditionally:
the session holds a bot owned by no project. -/
theorem c2_orphan_bot_created :
    orphanDB.getProject 42 = none ∧ (orphanDB.getBots 42).length = 1 := by
  decide

/-- C3 counterexample: on the never-initialized service, `getProjects`
fails with the null-engine TypeError of `this.db.exec(...)`, not with the
dedicated `NotInitialized` error (that explicit check exists only in
`export()`). -/
theorem c3_not_initialized_counterexample :
    (Session.start.getProjects).1 = Except.error JsError.nullEngine ∧
    JsError.nullEngine ≠ JsError.notInitialized :=
⟨rfl, by decide⟩

/-- C3 (amended): every operation called before `initialize` leaves the
state untouched, and all fail except one case: only `exportBytes` fails
with the dedicated `NotInitialized` error; `updatePrompt` with a patch
containing none of the updatable fields returns normally without error
(its `updates.length === 0` early return runs before the first engine
dereference); every other operation, and `updatePrompt` with a non-empty
patch, fails with the TypeError of dereferencing the null engine. -/
theorem c3_uninitialized_ops_fail (s : Session) (h : s.db = none)
    (id botId projectId now : Nat) (name description : String) (data : PromptPatch) :
    s.export = (.error .notInitialized, s) ∧
    s.getProjects = (.error .nullEngine, s) ∧
    s.getProject id = (.error .nullEngine, s) ∧
    s.createProject name description now = (.error .nullEngine, s) ∧
    s.updateProject id name description now = (.error .nullEngine, s) ∧
    s.deleteProject id = (.error .nullEngine, s) ∧
    s.getBots projectId = (.error .nullEngine, s) ∧
    s.getBot id = (.error .nullEngine, s) ∧
    s.createBot projectId name description now = (.error .nullEngine, s) ∧
    s.updateBot id name description now = (.error .nullEngine, s) ∧
    s.deleteBot id = (.error .nullEngine, s) ∧
    s.getPrompts botId = (.error .nullEngine, s) ∧
    s.getPrompt id = (.error .nullEngine, s) ∧
    s.createPrompt botId name now = (.error .nullEngine, s) ∧
    (data.isEmpty = false → s.updatePrompt id data now = (.error .nullEngine, s)) ∧
    (data.isEmpty = true → s.updatePrompt id data now = (.ok (), s)) ∧
    s.deletePrompt id = (.error .nullEngine, s) ∧
    s.duplicatePrompt id now = (.error .nullEngine, s) := by
  obtain ⟨db0, fh0⟩ := s
  simp only at h
  subst h
  refine ⟨rfl, rfl, rfl, rfl, rfl, rfl, rfl, rfl, rfl, rfl, rfl, rfl, rfl, rfl,
    fun hne => ?_, fun he => ?_, rfl, rfl⟩
  · simp [Session.updatePrompt, hne]
  · simp [Session.updatePrompt, he]

/-- Witness for the amended C3 theorem at the freshly constructed
service, exercising both `updatePrompt` branches. -/
theorem c3_uninitialized_ops_fail_witness :
    Session.start.export = (.error .notInitialized, Session.start) ∧
    Session.start.getProjects = (.error .nullEngine, Session.start) ∧
    Session.start.updatePrompt 1 { name := some "X" } 0 =
      (.error .nullEngine, Session.start) ∧
    Session.start.updatePrompt 1 {} 0 = (.ok (), Session.start) :=
⟨(c3_uninitialized_ops_fail Session.start rfl 1 1 1 0 "n" "d" {}).1,
 (c3_uninitialized_ops_fail Session.start rfl 1 1 1 0 "n" "d" {}).2.1,
 (c3_uninitialized_ops_fail Session.start rfl 1 1 1 0 "n" "d"
    { name := some "X" }).2.2.2.2.2.2.2.2.2.2.2.2.2.2.1 rfl,
 (c3_uninitialized_ops_fail Session.start rfl 1 1 1 0 "n" "d"
    {}).2.2.2.2.2.2.2.2.2.2.2.2.2.2.2.1 rfl⟩

/-- Concrete bound application state for C4: engine present, file handle
bound, the handle remembered in the cache slot. -/
def boundApp : AppState :=
⟨⟨some DB.fresh, some ⟨"prompts.sqlite"⟩⟩, some ⟨"prompts.sqlite"⟩⟩

/-- C4 counterexample: when the write permission is refused on a bound
session, `saveToDisk` DOES raise (it re-throws the permission error), and
after the caller's `handleSaveDb` the Handle Cache slot is NOT cleared —
contradicting the claim that the save path raises nothing, returns the
`Unbound` outcome and clears the cache slot. -/
theorem c4_permission_refused_counterexample :
    (boundApp.session.saveToDisk WriteEnv.refused).1 =
      Except.error JsError.permissionDenied ∧
    (handleSaveDb boundApp WriteEnv.refused).2.handleCache = some ⟨"prompts.sqlite"⟩ :=
⟨rfl, rfl⟩

/-- C4 (amended): on a bound session whose write permission is refused,
`saveToDisk` raises the permission error (leaving the session unchanged);
the caller catches it and only reports a failure alert, leaving the
binding, the Handle Cache slot and the in-memory database contents all
unchanged — there is no `Stale` transition, no `Unbound` outcome and no
cache clearing. -/
theorem c4_permission_refused_raises (app : AppState) (d : DB) (h : FileHandle)
    (hdb : app.session.db = some d) (hfh : app.session.fileHandle = some h) :
    app.session.saveToDisk WriteEnv.refused =
      (.error .permissionDenied, app.session) ∧
    handleSaveDb app WriteEnv.refused = (.alertFailure, app) := by
  obtain ⟨⟨db0, fh0⟩, cache⟩ := app
  simp only at hdb hfh
  subst hdb hfh
  exact ⟨rfl, rfl⟩

/-- Witness for the amended C4 theorem at the concrete bound state. -/
theorem c4_permission_refused_raises_witness :
    boundApp.session.saveToDisk WriteEnv.refused =
      (.error .permissionDenied, boundApp.session) ∧
    handleSaveDb boundApp WriteEnv.refused = (.alertFailure, boundApp) :=
c4_permission_refused_raises boundApp DB.fresh ⟨"prompts.sqlite"⟩ rfl rfl

/-- C5: on an initialized session, `exportBytes` succeeds returning the
engine image and has no side effect on the session, and `initialize` on
that image (in any session) yields an engine whose three tables hold
exactly the same rows. -/
theorem c5_export_roundtrip (s s2 : Session) (d : DB) (h : s.db = some d) :
    s.export = (.ok d, s) ∧
    ∃ d2, (s2.init (some d)).db = some d2 ∧
      d2.projects.rows = d.projects.rows ∧
      d2.bots.rows = d.bots.rows ∧
      d2.prompts.rows = d.prompts.rows := by
  refine ⟨by simp [Session.export, h], d, by simp [Session.init], rfl, rfl, rfl⟩

/-- Witness for C5 on a one-project session. -/
theorem c5_export_roundtrip_witness :
    (Session.start.init none).createProject "P" "" 1 =
      (.ok (), Session.start.init (some (DB.fresh.createProject "P" "" 1))) ∧
    ((Session.start.init (some (DB.fresh.createProject "P" "" 1))).export.1 =
      .ok (DB.fresh.createProject "P" "" 1)) := by
  refine ⟨rfl, ?_⟩
  have h := c5_export_roundtrip (Session.start.init (some (DB.fresh.createProject "P" "" 1)))
    Session.start (DB.fresh.createProject "P" "" 1) rfl
  rw [h.1]

/-- C6: every listing (`getProjects`, `getBots`, `getPrompts`) is ordered
by `updated_at` descending, and a freshly created project, bot or prompt
is a member of its parent's listing (stamped with the creation time, so it
carries the maximal `updated_at` of the recents-first order). -/
theorem c6_listing_order (db : DB) (pid bid now : Nat)
    (pname pdesc bname bdesc prname : String) :
    List.Pairwise (fun a b => b.updated_at ≤ a.updated_at) db.getProjects ∧
    List.Pairwise (fun a b => b.updated_at ≤ a.updated_at) (db.getBots pid) ∧
    List.Pairwise (fun a b => b.updated_at ≤ a.updated_at) (db.getPrompts bid) ∧
    (∃ r ∈ (db.createProject pname pdesc now).getProjects,
        r.name = pname ∧ r.description = pdesc ∧ r.updated_at = now) ∧
    (∃ r ∈ (db.createBot pid bname bdesc now).getBots pid,
        r.name = bname ∧ r.project_id = pid ∧ r.updated_at = now) ∧
    (∃ r ∈ ((db.createPrompt bid prname now).2).getPrompts bid,
        r.name = prname ∧ r.bot_id = bid ∧ r.updated_at = now) := by
  refine ⟨sorted_orderByUpdatedDesc _ _, sorted_orderByUpdatedDesc _ _,
    sorted_orderByUpdatedDesc _ _, ?_, ?_, ?_⟩
  · refine ⟨⟨db.projects.seq, pname, pdesc, now, now⟩, ?_, rfl, rfl, rfl⟩
    exact (mem_orderByUpdatedDesc _ _ _).2 (by simp [DB.createProject])
  · refine ⟨⟨db.bots.seq, pid, bname, bdesc, now, now⟩, ?_, rfl, rfl, rfl⟩
    exact (mem_orderByUpdatedDesc _ _ _).2
      (List.mem_filter.2 ⟨by simp [DB.createBot], by simp⟩)
  · refine ⟨⟨db.prompts.seq, bid, prname, "", "", "", defaultParams, now, now⟩, ?_, rfl, rfl, rfl⟩
    exact (mem_orderByUpdatedDesc _ _ _).2
      (List.mem_filter.2 ⟨by simp [DB.createPrompt], by simp⟩)

/-- C7: `updatePrompt` with an empty patch is a full no-op (`updated_at`
included); with a non-empty patch it leaves the other tables, the
sequence and the register unchanged, and rewrites the prompts rows
pointwise: rows with another id are untouched, and the matching row keeps
its identity, owner, `created_at` and every field the patch omits, takes
every field the patch carries, and gets `updated_at` stamped to now. -/
theorem c7_update_prompt_frame (db : DB) (id : Nat) (data : PromptPatch) (now : Nat) :
    (data.isEmpty = true → db.updatePrompt id data now = db) ∧
    (db.updatePrompt id data now).projects = db.projects ∧
    (db.updatePrompt id data now).bots = db.bots ∧
    (db.updatePrompt id data now).prompts.seq = db.prompts.seq ∧
    (db.updatePrompt id data now).lastInsertRowid = db.lastInsertRowid ∧
    (data.isEmpty = false →
      List.Forall₂ (fun old new =>
          (old.id ≠ id → new = old) ∧
          (old.id = id →
            new.id = old.id ∧ new.bot_id = old.bot_id ∧ new.created_at = old.created_at ∧
            new.name = data.name.getD old.name ∧
            new.system_prompt = data.system_prompt.getD old.system_prompt ∧
            new.user_prompt = data.user_prompt.getD old.user_prompt ∧
            new.dev_prompt = data.dev_prompt.getD old.dev_prompt ∧
            new.params = data.params.getD old.params ∧
            new.updated_at = now))
        db.prompts.rows (db.updatePrompt id data now).prompts.rows) := by
  refine ⟨fun h => by simp [DB.updatePrompt, h],
    by unfold DB.updatePrompt; split <;> rfl,
    by unfold DB.updatePrompt; split <;> rfl,
    by unfold DB.updatePrompt; split <;> rfl,
    by unfold DB.updatePrompt; split <;> rfl,
    fun h => ?_⟩
  unfold DB.updatePrompt
  rw [if_neg (by simp [h])]
  refine forall₂_map_self _ _ _ (fun a _ => ⟨fun hne => if_neg hne, fun heq => ?_⟩)
  simp [heq]

/-- A one-prompt database used to witness the C7 theorem. -/
def wdb7 : DB := (DB.fresh.createPrompt 1 "N" 1).2

/-- The all-absent `Partial<Prompt>` record. -/
def emptyPatch : PromptPatch := {}

/-- A patch carrying only a new name. -/
def patch7 : PromptPatch := { name := some "X" }

/-- Witness for C7: both hypotheses discharged on `wdb7`. -/
theorem c7_update_prompt_frame_witness :
    wdb7.updatePrompt 1 emptyPatch 9 = wdb7 ∧
    List.Forall₂ (fun old new =>
        (old.id ≠ 1 → new = old) ∧
        (old.id = 1 →
          new.id = old.id ∧ new.bot_id = old.bot_id ∧ new.created_at = old.created_at ∧
          new.name = patch7.name.getD old.name ∧
          new.system_prompt = patch7.system_prompt.getD old.system_prompt ∧
          new.user_prompt = patch7.user_prompt.getD old.user_prompt ∧
          new.dev_prompt = patch7.dev_prompt.getD old.dev_prompt ∧
          new.params = patch7.params.getD old.params ∧
          new.updated_at = 9))
      wdb7.prompts.rows ((wdb7.updatePrompt 1 patch7 9).prompts.rows) :=
⟨(c7_update_prompt_frame wdb7 1 emptyPatch 9).1 rfl,
 (c7_update_prompt_frame wdb7 1 patch7 9).2.2.2.2.2 rfl⟩

/-- C8: `createPrompt` inserts exactly one prompt row with empty
system/user/dev bodies and the fixed default params payload, and returns
the engine's `last_insert_rowid()` (the table's sequence value) as the new
identity; on the spec scenario (fresh session, one project, one bot) the
first `createPrompt` returns id 1 and `getPrompt(1).params` is the
default payload. -/
theorem c8_create_prompt_defaults (db : DB) (b now : Nat) (n : String) :
    (db.createPrompt b n now).1 = (db.createPrompt b n now).2.lastInsertRowid ∧
    (db.createPrompt b n now).1 = db.prompts.seq ∧
    (db.createPrompt b n now).2.prompts.rows =
      db.prompts.rows ++ [⟨db.prompts.seq, b, n, "", "", "", defaultParams, now, now⟩] ∧
    ((((DB.fresh.createProject "P1" "" 1).createBot 1 "B1" "" 2).createPrompt
        1 "New Prompt" 3).1 = 1 ∧
      (((((DB.fresh.createProject "P1" "" 1).createBot 1 "B1" "" 2).createPrompt
          1 "New Prompt" 3).2.getPrompt 1).map PromptRow.params = some defaultParams)) :=
⟨rfl, rfl, rfl, by decide, by decide⟩

/-- Well-formedness of the prompts table: every present id is below the
AUTOINCREMENT sequence.  It holds for every reachable state, since ids
are assigned from the strictly increasing sequence. -/
def DB.promptsWF (db : DB) : Prop := ∀ r ∈ db.prompts.rows, r.id < db.prompts.seq

/-- C9: when `id` resolves, `duplicatePrompt` appends exactly one new row
owned by the same bot, with identical body fields and params, the name
suffixed with " (Copy)", and (in any well-formed table) an identity
distinct from every existing row; when `id` does not resolve it returns
without any effect. -/
theorem c9_duplicate_prompt (db : DB) (id now : Nat) :
    (db.getPrompt id = none → db.duplicatePrompt id now = db) ∧
    (∀ p, db.getPrompt id = some p →
      (db.duplicatePrompt id now).projects = db.projects ∧
      (db.duplicatePrompt id now).bots = db.bots ∧
      ∃ nr,
        (db.duplicatePrompt id now).prompts.rows = db.prompts.rows ++ [nr] ∧
        nr.bot_id = p.bot_id ∧
        nr.name = p.name ++ " (Copy)" ∧
        nr.system_prompt = p.system_prompt ∧
        nr.user_prompt = p.user_prompt ∧
        nr.dev_prompt = p.dev_prompt ∧
        nr.params = p.params ∧
        (db.promptsWF → ∀ r ∈ db.prompts.rows, nr.id ≠ r.id)) := by
  constructor
  · intro h
    unfold DB.duplicatePrompt
    rw [h]
  · intro p hp
    unfold DB.duplicatePrompt
    rw [hp]
    exact ⟨rfl, rfl, _, rfl, rfl, rfl, rfl, rfl, rfl, rfl,
      fun hwf r hr => (hwf r hr).ne'⟩

/-- A one-prompt database used to witness the C9 theorem. -/
def wdb9 : DB := (DB.fresh.createPrompt 1 "N" 1).2

/-- The single row of `wdb9`. -/
def wrow9 : PromptRow := ⟨1, 1, "N", "", "", "", defaultParams, 1, 1⟩

/-- Witness for C9: both branches exercised on `wdb9` (id 2 does not
resolve, id 1 does; well-formedness checked concretely). -/
theorem c9_duplicate_prompt_witness :
    wdb9.duplicatePrompt 2 9 = wdb9 ∧
    ∃ nr, (wdb9.duplicatePrompt 1 9).prompts.rows = wdb9.prompts.rows ++ [nr] ∧
      nr.name = "N (Copy)" ∧ ∀ r ∈ wdb9.prompts.rows, nr.id ≠ r.id := by
  refine ⟨(c9_duplicate_prompt wdb9 2 9).1 (by decide), ?_⟩
  obtain ⟨-, -, nr, hrows, -, hname, -, -, -, -, hdist⟩ :=
    (c9_duplicate_prompt wdb9 1 9).2 wrow9 (by decide)
  exact ⟨nr, hrows, by rw [hname]; decide, hdist (by unfold DB.promptsWF; decide)⟩

/-- C10: deleting or patching an id that occurs in no row of the targeted
table completes without error and leaves the whole session (every row of
every table) unchanged. -/
theorem c10_missing_id_noop (s : Session) (d : DB) (hdb : s.db = some d)
    (id now : Nat) (data : PromptPatch) :
    ((∀ r ∈ d.projects.rows, r.id ≠ id) → s.deleteProject id = (.ok (), s)) ∧
    ((∀ r ∈ d.bots.rows, r.id ≠ id) → s.deleteBot id = (.ok (), s)) ∧
    ((∀ r ∈ d.prompts.rows, r.id ≠ id) →
      s.deletePrompt id = (.ok (), s) ∧ s.updatePrompt id data now = (.ok (), s)) := by
  obtain ⟨db0, fh0⟩ := s
  simp only at hdb
  subst hdb
  refine ⟨fun h => ?_, fun h => ?_, fun h => ⟨?_, ?_⟩⟩
  · simp [Session.deleteProject, DB.deleteProject_not_mem d id h]
  · simp [Session.deleteBot, DB.deleteBot_not_mem d id h]
  · simp [Session.deletePrompt, DB.deletePrompt_not_mem d id h]
  · simp [Session.updatePrompt, DB.updatePrompt_not_mem d id data now h]

/-- A one-project session used to witness the C10 theorem. -/
def wses10 : Session := ⟨some (DB.fresh.createProject "P" "" 1), none⟩

/-- Witness for C10 at id 7, which occurs in no table. -/
theorem c10_missing_id_noop_witness :
    wses10.deleteProject 7 = (.ok (), wses10) ∧
    wses10.deletePrompt 7 = (.ok (), wses10) := by
  have h := c10_missing_id_noop wses10 (DB.fresh.createProject "P" "" 1) rfl 7 9 {}
  exact ⟨h.1 (by decide), (h.2.2 (by decide)).1⟩

end LocalPromptManager
